import Mathlib

/-!
Shallow embedding of the market-movement alert scripts
(post_btc_chart_hourly.py, post_btc_chart_weekly.py,
post_eod_favorites_performance.py, post_eow_mag7_performance.py).

Prices are embedded as rationals, timestamps as integers (seconds).
External collaborators (CoinGecko / yfinance fetch, QuickChart render,
X media upload and tweet creation) are embedded as environment fields
holding the result each call would produce; the orchestrator functions
mirror the control flow of each script's main, recording which stages
ran and the terminal outcome.
-/

namespace XPosts

/-- A timestamped price sample, as produced by fetch_btc_data:
a pair of an instant and a price. -/
structure Sample where
  ts : Int
  price : Rat
deriving DecidableEq, Repr

/-- The eleven movement markers returned by get_movement_emoji,
named after the emoji each branch returns. -/
inductive Marker where
  | dove
  | rocket
  | bolt
  | chartUp
  | arrowUp
  | hole
  | skull
  | blood
  | chartDown
  | arrowDown
  | flat
deriving DecidableEq, Repr

/-- Embedding of get_movement_emoji (identical in all variants):
a chain of strict comparisons, positive bands first, then negative,
with the flat marker as the final catch-all. -/
def get_movement_emoji (pct_change : Rat) : Marker :=
  if pct_change > 20 then .dove
  else if pct_change > 15 then .rocket
  else if pct_change > 10 then .bolt
  else if pct_change > 5 then .chartUp
  else if pct_change > 1 then .arrowUp
  else if pct_change < -20 then .hole
  else if pct_change < -15 then .skull
  else if pct_change < -10 then .blood
  else if pct_change < -5 then .chartDown
  else if pct_change < -1 then .arrowDown
  else .flat

/-- Modelled from the spec: the eleven ordered bands of the movement
classifier as listed in the design, each an explicit interval with
exclusive-outer / inclusive-inner boundaries.  This is the spec-side
definition, to be compared with get_movement_emoji. -/
def inBand : Marker → Rat → Prop
  | .dove, p => 20 < p
  | .rocket, p => 15 < p ∧ p ≤ 20
  | .bolt, p => 10 < p ∧ p ≤ 15
  | .chartUp, p => 5 < p ∧ p ≤ 10
  | .arrowUp, p => 1 < p ∧ p ≤ 5
  | .flat, p => -1 ≤ p ∧ p ≤ 1
  | .arrowDown, p => -5 ≤ p ∧ p < -1
  | .chartDown, p => -10 ≤ p ∧ p < -5
  | .blood, p => -15 ≤ p ∧ p < -10
  | .skull, p => -20 ≤ p ∧ p < -15
  | .hole, p => p < -20

/-- Errors raised and caught inside the scripts. -/
inductive PyError where
  | fetchError
  | zeroDivisionError
  | indexError
  | valueError (missing : List String)
  | renderError
  | publishError
deriving DecidableEq, Repr

/-- Hourly variant, lines 246-247: price_diff divided by
earliest_price, times 100.  Python float division raises
ZeroDivisionError when the divisor is zero. -/
def pctChange (price_diff earliest_price : Rat) : Except PyError Rat :=
  if earliest_price = 0 then .error .zeroDivisionError
  else .ok (price_diff / earliest_price * 100)

/-- Weekly variant, line 236: the conditional expression guards the
division on the truthiness of earliest_price and yields 0 otherwise. -/
def weeklyPctChange (price_diff earliest_price : Rat) : Rat :=
  if earliest_price ≠ 0 then price_diff / earliest_price * 100 else 0

/-- Hourly variant, line 235: keep the points whose timestamp is
strictly later than one hour before now. -/
def filterLastHour (full_day_data : List Sample) (now_et : Int) : List Sample :=
  full_day_data.filter (fun s => now_et - 3600 < s.ts)

/-- Comparator used by the in-place sort keyed on the timestamp
(hourly variant, line 242). -/
def tsLe (a b : Sample) : Bool := a.ts ≤ b.ts

/-- Stable sort of the window by timestamp, the embedding of
list.sort with the timestamp key. -/
def sortByTs (l : List Sample) : List Sample := l.mergeSort tsLe

/-- The WindowSelector of the pipeline: filter the series to the
samples strictly inside the lookback, then sort by timestamp
(hourly variant, lines 235 and 242, with the lookback a parameter). -/
def selectWindow (series : List Sample) (lookback now : Int) : List Sample :=
  sortByTs (series.filter (fun s => now - lookback < s.ts))

/-- Python extended slice with a step and no bounds: counter 0 keeps
the element and resets, a positive counter skips it. -/
def sliceStep {α : Type} (step : Nat) : Nat → List α → List α
  | _, [] => []
  | 0, x :: xs => x :: sliceStep step (step - 1) xs
  | k + 1, _ :: xs => sliceStep step k xs

/-- Weekly variant, line 229: keep every fifth data point, starting
with the first. -/
def stride5 (l : List Sample) : List Sample := sliceStep 5 0 l

/-- The four publisher credentials read from the environment; a value
of none embeds an unset variable and the empty string is also falsy
in the script's check. -/
structure Creds where
  api_key : Option String
  api_key_secret : Option String
  access_token : Option String
  access_token_secret : Option String
deriving DecidableEq, Repr

/-- Python truthiness of an optional string: set and nonempty. -/
def truthy : Option String → Bool
  | none => false
  | some s => !(s == "")

/-- The name/value pairs inspected by the credential loop, in the
order the scripts list them. -/
def credPairs (c : Creds) : List (String × Option String) :=
  [("API_KEY", c.api_key),
   ("API_KEY_SECRET", c.api_key_secret),
   ("ACCESS_TOKEN", c.access_token),
   ("ACCESS_TOKEN_SECRET", c.access_token_secret)]

/-- The list of names of absent credentials accumulated by the loop in
post_tweet_with_image / post_tweet. -/
def missing_creds (c : Creds) : List String :=
  ((credPairs c).filter (fun p => !truthy p.2)).map Prod.fst

/-- Results the publisher collaborators would return: the credentials
in the environment, the media-upload outcome and the create-tweet
outcome. -/
structure PublishEnv where
  creds : Creds
  uploadResult : Except Unit Nat
  createResult : Except Unit Nat
deriving Repr

/-- What one invocation of the posting helper did: whether the media
upload and the tweet creation were reached, and the value returned or
the error raised. -/
structure PublishTrace where
  uploadCalled : Bool
  createCalled : Bool
  result : Except PyError Nat
deriving Repr

/-- Embedding of post_tweet_with_image (hourly and weekly variants):
check the four credentials and raise a ValueError naming the absent
ones before any network call; otherwise upload the media, then create
the tweet, wrapping any failure of either step. -/
def post_tweet_with_image (env : PublishEnv) : PublishTrace :=
  let missing := missing_creds env.creds
  if missing ≠ [] then ⟨false, false, .error (.valueError missing)⟩
  else
    match env.uploadResult with
    | .error _ => ⟨true, false, .error .publishError⟩
    | .ok _media_id =>
      match env.createResult with
      | .error _ => ⟨true, true, .error .publishError⟩
      | .ok tweet_id => ⟨true, true, .ok tweet_id⟩

/-- Embedding of the text-only post_tweet (batch digest variants):
same credential check, then a single create-tweet call with no media
upload. -/
def post_tweet (env : PublishEnv) : PublishTrace :=
  let missing := missing_creds env.creds
  if missing ≠ [] then ⟨false, false, .error (.valueError missing)⟩
  else
    match env.createResult with
    | .error _ => ⟨false, true, .error .publishError⟩
    | .ok tweet_id => ⟨false, true, .ok tweet_id⟩

/-- Latest price, price difference and percent change as read off a
window by the hourly main (lines 243-247): chronological first and
last samples, with the division raising on a zero start price. -/
def hourlyStats (w : List Sample) : Except PyError (Rat × Rat × Rat) :=
  match w.head?, w.getLast? with
  | some firstS, some lastS =>
    let earliest_price := firstS.price
    let latest_price := lastS.price
    let price_diff := latest_price - earliest_price
    (pctChange price_diff earliest_price).map
      fun pct_change => (latest_price, price_diff, pct_change)
  | _, _ => .error .indexError

/-- Latest price, price difference and percent change as computed by
the weekly main (lines 233-236): indexing an empty list raises, and a
zero start price is silently coerced to a 0 percent change. -/
def weeklyStats (btc_data : List Sample) : Except PyError (Rat × Rat × Rat) :=
  match btc_data.head?, btc_data.getLast? with
  | some firstS, some lastS =>
    let earliest_price := firstS.price
    let latest_price := lastS.price
    let price_diff := latest_price - earliest_price
    .ok (latest_price, price_diff, weeklyPctChange price_diff earliest_price)
  | _, _ => .error .indexError

/-- Environment of one hourly run: the fetch outcome, the current
instant, the render outcome and the publisher environment. -/
structure HourlyEnv where
  fetchResult : Except Unit (List Sample)
  now_et : Int
  renderResult : Except Unit Unit
  pub : PublishEnv
deriving Repr

/-- Terminal outcome of a single-symbol chart run. -/
inductive ChartOutcome where
  | insufficientData
  | belowThreshold
  | caughtError (e : PyError)
  | published (tweet_id : Nat)
deriving DecidableEq, Repr

/-- Trace of one single-symbol chart run: which stages were reached,
the terminal outcome, and the process exit code. -/
structure ChartTrace where
  computedChange : Bool
  renderCalled : Bool
  publishCalled : Bool
  outcome : ChartOutcome
  exitCode : Nat
deriving DecidableEq, Repr

/-- Embedding of main of post_btc_chart_hourly.py: fetch, filter to
the last hour, skip when fewer than two points remain, sort, compute
the change, gate on a 10 percent magnitude, render, classify, post.
The whole body sits in one try/except, so every raised error is
caught, printed, and the process exits zero. -/
def hourlyMain (env : HourlyEnv) : ChartTrace :=
  match env.fetchResult with
  | .error _ => ⟨false, false, false, .caughtError .fetchError, 0⟩
  | .ok full_day_data =>
    let btc_data_1h := filterLastHour full_day_data env.now_et
    if btc_data_1h.length < 2 then
      ⟨false, false, false, .insufficientData, 0⟩
    else
      match hourlyStats (sortByTs btc_data_1h) with
      | .error e => ⟨true, false, false, .caughtError e, 0⟩
      | .ok (_latest_price, _price_diff, pct_change) =>
        if |pct_change| < 10 then
          ⟨true, false, false, .belowThreshold, 0⟩
        else
          match env.renderResult with
          | .error _ => ⟨true, true, false, .caughtError .renderError, 0⟩
          | .ok _ =>
            let _movement_emoji := get_movement_emoji pct_change
            match (post_tweet_with_image env.pub).result with
            | .error e => ⟨true, true, true, .caughtError e, 0⟩
            | .ok tweet_id => ⟨true, true, true, .published tweet_id, 0⟩

/-- Environment of one weekly run. -/
structure WeeklyEnv where
  fetchResult : Except Unit (List Sample)
  renderResult : Except Unit Unit
  pub : PublishEnv
deriving Repr

/-- Trace of one weekly run: the percent change actually used for the
emoji and the tweet text (when the run got that far), the stages
reached, the terminal outcome, and the exit code. -/
structure WeeklyTrace where
  pct_used : Option Rat
  renderCalled : Bool
  publishCalled : Bool
  outcome : ChartOutcome
  exitCode : Nat
deriving DecidableEq, Repr

/-- Embedding of main of post_btc_chart_weekly.py: fetch, downsample
to every fifth point, compute the change from the downsampled data
with the zero-divisor coercion, render, classify, post.  There is no
minimum-sample check and no threshold gate; the whole body sits in
one try/except, so the process exits zero. -/
def weeklyMain (env : WeeklyEnv) : WeeklyTrace :=
  match env.fetchResult with
  | .error _ => ⟨none, false, false, .caughtError .fetchError, 0⟩
  | .ok btc_data0 =>
    let btc_data := stride5 btc_data0
    match weeklyStats btc_data with
    | .error e => ⟨none, false, false, .caughtError e, 0⟩
    | .ok (_latest_price, _price_diff, pct_change) =>
      match env.renderResult with
      | .error _ => ⟨some pct_change, true, false, .caughtError .renderError, 0⟩
      | .ok _ =>
        let _movement_emoji := get_movement_emoji pct_change
        match (post_tweet_with_image env.pub).result with
        | .error e => ⟨some pct_change, true, true, .caughtError e, 0⟩
        | .ok tweet_id => ⟨some pct_change, true, true, .published tweet_id, 0⟩

/-- Ticker list of post_eod_favorites_performance.py. -/
def EOD_TICKERS : List String :=
  ["SPY", "QQQ", "AMZN", "GOOG", "NVDA", "TSLA", "HOOD", "COIN", "HIMS"]

/-- Ticker list of post_eow_mag7_performance.py. -/
def MAG7_TICKERS : List String :=
  ["MSFT", "AAPL", "GOOGL", "AMZN", "NVDA", "META", "TSLA"]

/-- Per-ticker entry of the performance mapping returned by the batch
fetch: latest close and percent change. -/
structure PerfInfo where
  close : Rat
  pct_change : Rat
deriving DecidableEq, Repr

/-- One line of the composed digest message.  A data line keeps the
pieces interpolated into the f-string (ticker, close, whether a plus
sign is prepended, percent change, emoji); a no-data line carries its
literal text. -/
inductive Line where
  | data (ticker : String) (close : Rat) (sign_plus : Bool) (pct : Rat) (emoji : Marker)
  | noData (text : String)
deriving DecidableEq, Repr

/-- Line built for one ticker by the digest composing loop.  The
dollar flag distinguishes the two scripts' no-data text: the mag7
script prefixes the ticker with a dollar sign, the eod favorites
script does not. -/
def buildLine (dollarNoData : Bool) (ticker : String) :
    Option PerfInfo → Line
  | some info =>
      .data ticker info.close (decide (0 ≤ info.pct_change)) info.pct_change
        (get_movement_emoji info.pct_change)
  | none =>
      .noData ((if dollarNoData then "$" ++ ticker else ticker) ++ ": No Data")

/-- The lines of the digest, one per configured ticker, in the order
of the configured list, looked up in the fetched performance
mapping. -/
def buildLines (dollarNoData : Bool) (tickers : List String)
    (perf : List (String × PerfInfo)) : List Line :=
  tickers.map (fun t => buildLine dollarNoData t (perf.lookup t))

/-- Terminal outcome of a batch digest run.  The fetch call sits
outside the try/except of these scripts, so a fetch failure escapes
main uncaught. -/
inductive BatchOutcome where
  | uncaught (e : PyError)
  | noData
  | publishFailed (e : PyError)
  | published (tweet_id : Nat)
deriving DecidableEq, Repr

/-- Trace of one batch digest run: the composed lines when composing
was reached, how many publish calls were made, the terminal outcome
and the process exit code. -/
structure BatchTrace where
  composed : Option (List Line)
  publishCalls : Nat
  outcome : BatchOutcome
  exitCode : Nat
deriving DecidableEq, Repr

/-- Embedding of main of the batch digest scripts
(post_eod_favorites_performance.py and
post_eow_mag7_performance.py): fetch the performance mapping with no
surrounding try/except, return early when it is empty, compose one
line per configured ticker, then make exactly one guarded publish
call.  There is no magnitude threshold anywhere. -/
def batchMain (tickers : List String) (dollarNoData : Bool)
    (fetchResult : Except PyError (List (String × PerfInfo)))
    (pub : PublishEnv) : BatchTrace :=
  match fetchResult with
  | .error e => ⟨none, 0, .uncaught e, 1⟩
  | .ok perf_data =>
    if perf_data.isEmpty then ⟨none, 0, .noData, 0⟩
    else
      let lines := buildLines dollarNoData tickers perf_data
      match (post_tweet pub).result with
      | .error e => ⟨some lines, 1, .publishFailed e, 0⟩
      | .ok tweet_id => ⟨some lines, 1, .published tweet_id, 0⟩

/-- Main of post_eod_favorites_performance.py. -/
def eodMain (fetchResult : Except PyError (List (String × PerfInfo)))
    (pub : PublishEnv) : BatchTrace :=
  batchMain EOD_TICKERS false fetchResult pub

/-- Main of post_eow_mag7_performance.py. -/
def mag7Main (fetchResult : Except PyError (List (String × PerfInfo)))
    (pub : PublishEnv) : BatchTrace :=
  batchMain MAG7_TICKERS true fetchResult pub

/-- A publisher environment where all four credentials are present and
both network calls succeed, the upload returning media id 11 and the
tweet creation returning tweet id 42. -/
def goodPub : PublishEnv :=
  ⟨⟨some "k", some "s", some "t", some "u"⟩, .ok 11, .ok 42⟩

set_option maxHeartbeats 4000000 in
/-- Helper for claim C6: the classifier returns a marker exactly when
the percent change lies in that marker's band. -/
lemma emoji_band_iff (pct : Rat) (m : Marker) :
    get_movement_emoji pct = m ↔ inBand m pct := by
  cases m <;> simp only [inBand] <;>
    unfold get_movement_emoji <;>
    split_ifs <;> constructor <;> intro hx <;>
    first
      | rfl
      | exact absurd hx (by decide)
      | linarith
      | (constructor <;> linarith)

/-- Claim C6: the movement classifier is total, every percent change
lands in exactly one of the eleven bands with exclusive-outer /
inclusive-inner boundaries, and the boundary values 20, -20, 1 and -1
map to the (15,20] marker, the [-20,-15) marker and the flat marker
respectively. -/
theorem movement_classifier_bands :
    (∀ (pct : Rat) (m : Marker), get_movement_emoji pct = m ↔ inBand m pct) ∧
    get_movement_emoji 20 = .rocket ∧
    get_movement_emoji (-20) = .skull ∧
    get_movement_emoji 1 = .flat ∧
    get_movement_emoji (-1) = .flat :=
  ⟨emoji_band_iff,
   (emoji_band_iff 20 .rocket).mpr (by norm_num [inBand]),
   (emoji_band_iff (-20) .skull).mpr (by norm_num [inBand]),
   (emoji_band_iff 1 .flat).mpr (by norm_num [inBand]),
   (emoji_band_iff (-1) .flat).mpr (by norm_num [inBand])⟩

/-- Claim C5: for a series sorted strictly ascending by timestamp,
window selection returns exactly the samples with timestamp strictly
greater than now minus the lookback, as an order-preserving
subsequence of the series. -/
theorem window_select_spec (S : List Sample) (L t : Int)
    (hS : S.Pairwise (fun a b => a.ts < b.ts)) :
    (selectWindow S L t).Sublist S ∧
    ∀ s : Sample, s ∈ selectWindow S L t ↔ s ∈ S ∧ t - L < s.ts := by
  have hf : (List.filter (fun s => decide (t - L < s.ts)) S).Pairwise
      (fun a b => tsLe a b = true) := by
    refine List.Pairwise.imp ?_ (List.Pairwise.sublist (List.filter_sublist S) hS)
    intro a b hab
    simp only [tsLe, decide_eq_true_eq]
    exact le_of_lt hab
  have hsel : selectWindow S L t = List.filter (fun s => decide (t - L < s.ts)) S := by
    unfold selectWindow sortByTs
    exact List.mergeSort_of_sorted hf
  constructor
  · rw [hsel]
    exact List.filter_sublist S
  · intro s
    rw [hsel, List.mem_filter]
    simp

/-- Witness for claim C5: the sortedness hypothesis and the
conclusion, at a concrete three-sample series with lookback 15 and
reference instant 20. -/
theorem window_select_spec_witness :
    (selectWindow [⟨0, 1⟩, ⟨10, 2⟩, ⟨20, 3⟩] 15 20).Sublist [⟨0, 1⟩, ⟨10, 2⟩, ⟨20, 3⟩] ∧
    ∀ s : Sample, s ∈ selectWindow [⟨0, 1⟩, ⟨10, 2⟩, ⟨20, 3⟩] 15 20 ↔
      s ∈ [(⟨0, 1⟩ : Sample), ⟨10, 2⟩, ⟨20, 3⟩] ∧ 20 - 15 < s.ts :=
  window_select_spec [⟨0, 1⟩, ⟨10, 2⟩, ⟨20, 3⟩] 15 20 (by decide)

/-- Counterexample to claim C1: a weekly run whose chronologically
first sample has price zero is published with the percent change
silently coerced to 0; no DivisionByZeroError is raised. -/
theorem weekly_zero_start_coerced :
    (weeklyMain ⟨.ok [⟨0, 0⟩, ⟨1, 5⟩], .ok (), goodPub⟩).pct_used = some 0 ∧
    (weeklyMain ⟨.ok [⟨0, 0⟩, ⟨1, 5⟩], .ok (), goodPub⟩).outcome = .published 42 ∧
    (weeklyMain ⟨.ok [⟨0, 0⟩, ⟨1, 5⟩], .ok (), goodPub⟩).outcome ≠
      .caughtError .zeroDivisionError := by
  have h : weeklyMain ⟨.ok [⟨0, 0⟩, ⟨1, 5⟩], .ok (), goodPub⟩ =
      ⟨some 0, true, true, .published 42, 0⟩ := by
    simp [weeklyMain, stride5, sliceStep, weeklyStats, weeklyPctChange,
      post_tweet_with_image, missing_creds, credPairs, truthy, goodPub]
  rw [h]
  refine ⟨rfl, rfl, by simp⟩

/-- Claim C1 as amended: the hourly percent-change computation fails
with ZeroDivisionError on a zero start price, while the weekly
variant silently coerces the percent change to 0. -/
theorem pct_change_zero_start :
    (∀ price_diff : Rat, pctChange price_diff 0 = .error .zeroDivisionError) ∧
    (∀ price_diff : Rat, weeklyPctChange price_diff 0 = 0) := by
  constructor
  · intro d
    simp [pctChange]
  · intro d
    simp [weeklyPctChange]

/-- Counterexample to claim C2: on a seven-sample window the stride-5
downsampling of the weekly variant drops the last sample, and the
change statistics computed for the published message differ from
those of the full window. -/
theorem stride5_drops_last_and_changes_stats :
    (stride5 [⟨0, 100⟩, ⟨1, 100⟩, ⟨2, 100⟩, ⟨3, 100⟩, ⟨4, 100⟩, ⟨5, 100⟩, ⟨6, 200⟩]).getLast? ≠
      ([⟨0, 100⟩, ⟨1, 100⟩, ⟨2, 100⟩, ⟨3, 100⟩, ⟨4, 100⟩, ⟨5, 100⟩, ⟨6, 200⟩] : List Sample).getLast? ∧
    weeklyStats (stride5 [⟨0, 100⟩, ⟨1, 100⟩, ⟨2, 100⟩, ⟨3, 100⟩, ⟨4, 100⟩, ⟨5, 100⟩, ⟨6, 200⟩]) =
      .ok (100, 0, 0) ∧
    weeklyStats [⟨0, 100⟩, ⟨1, 100⟩, ⟨2, 100⟩, ⟨3, 100⟩, ⟨4, 100⟩, ⟨5, 100⟩, ⟨6, 200⟩] =
      .ok (200, 100, 100) ∧
    (weeklyMain ⟨.ok [⟨0, 100⟩, ⟨1, 100⟩, ⟨2, 100⟩, ⟨3, 100⟩, ⟨4, 100⟩, ⟨5, 100⟩, ⟨6, 200⟩],
      .ok (), goodPub⟩).pct_used = some 0 := by
  refine ⟨?_, ?_, ?_, ?_⟩
  · have h : stride5 [⟨0, 100⟩, ⟨1, 100⟩, ⟨2, 100⟩, ⟨3, 100⟩, ⟨4, 100⟩, ⟨5, 100⟩, ⟨6, 200⟩] =
        [⟨0, 100⟩, ⟨5, 100⟩] := by
      simp [stride5, sliceStep]
    rw [h]
    decide
  · norm_num [stride5, sliceStep, weeklyStats, weeklyPctChange]
  · norm_num [weeklyStats, weeklyPctChange]
  · simp [weeklyMain, stride5, sliceStep, weeklyStats, weeklyPctChange,
      post_tweet_with_image, missing_creds, credPairs, truthy, goodPub]

/-- Claim C2 as amended: the stride-5 downsampling of the weekly
variant preserves the first sample of the window (but not necessarily
the last, and the published change is computed from the downsampled
window). -/
theorem stride5_preserves_head :
    ∀ l : List Sample, (stride5 l).head? = l.head? := by
  intro l
  cases l with
  | nil => rfl
  | cons x xs => rfl

/-- Counterexample to claim C3: a weekly run whose series holds a
single sample is not skipped for insufficient data; it renders and
publishes. -/
theorem weekly_single_sample_publishes :
    (weeklyMain ⟨.ok [⟨0, 100⟩], .ok (), goodPub⟩).publishCalled = true ∧
    (weeklyMain ⟨.ok [⟨0, 100⟩], .ok (), goodPub⟩).outcome = .published 42 := by
  have h : weeklyMain ⟨.ok [⟨0, 100⟩], .ok (), goodPub⟩ =
      ⟨some 0, true, true, .published 42, 0⟩ := by
    simp [weeklyMain, stride5, sliceStep, weeklyStats, weeklyPctChange,
      post_tweet_with_image, missing_creds, credPairs, truthy, goodPub]
  rw [h]
  exact ⟨rfl, rfl⟩

/-- Claim C3 as amended: in the hourly variant a run whose selected
window has fewer than 2 samples terminates as a skip for insufficient
data, without the change computation, without rendering and without
any publish attempt (the weekly variant has no such check and
publishes even a single-sample series). -/
theorem hourly_insufficient_data_skips (env : HourlyEnv) (data : List Sample)
    (hfetch : env.fetchResult = .ok data)
    (hlen : (filterLastHour data env.now_et).length < 2) :
    hourlyMain env = ⟨false, false, false, .insufficientData, 0⟩ := by
  unfold hourlyMain
  rw [hfetch]
  simp [hlen]

/-- Witness for claim C3: a concrete hourly run whose window holds a
single sample skips with the insufficient-data outcome. -/
theorem hourly_insufficient_data_skips_witness :
    hourlyMain ⟨.ok [⟨3700, 100⟩], 7200, .ok (), goodPub⟩ =
      ⟨false, false, false, .insufficientData, 0⟩ :=
  hourly_insufficient_data_skips ⟨.ok [⟨3700, 100⟩], 7200, .ok (), goodPub⟩
    [⟨3700, 100⟩] rfl (by decide)

/-- Claim C4: in the hourly variant, a run whose window has at least
2 samples and whose percent change has magnitude below the 10 percent
threshold terminates as a below-threshold skip, with no rendering and
no publish attempt. -/
theorem hourly_below_threshold_skips (env : HourlyEnv) (data : List Sample)
    (latest diff pct : Rat)
    (hfetch : env.fetchResult = .ok data)
    (hlen : ¬(filterLastHour data env.now_et).length < 2)
    (hstats : hourlyStats (sortByTs (filterLastHour data env.now_et)) = .ok (latest, diff, pct))
    (hpct : |pct| < 10) :
    hourlyMain env = ⟨true, false, false, .belowThreshold, 0⟩ := by
  unfold hourlyMain
  rw [hfetch]
  simp [hlen, hstats, hpct]

/-- Witness for claim C4: the two-sample window of the spec's
scenario B, prices 100 then 103, yields a 3 percent change and a
below-threshold skip. -/
theorem hourly_below_threshold_skips_witness :
    hourlyMain ⟨.ok [⟨6500, 100⟩, ⟨7000, 103⟩], 7200, .ok (), goodPub⟩ =
      ⟨true, false, false, .belowThreshold, 0⟩ :=
  hourly_below_threshold_skips ⟨.ok [⟨6500, 100⟩, ⟨7000, 103⟩], 7200, .ok (), goodPub⟩
    [⟨6500, 100⟩, ⟨7000, 103⟩] 103 3 3 rfl
    (by decide)
    (by
      rw [show sortByTs (filterLastHour [⟨6500, 100⟩, ⟨7000, 103⟩] 7200) =
            [⟨6500, 100⟩, ⟨7000, 103⟩] from List.mergeSort_of_sorted (by decide)]
      simp [hourlyStats, pctChange, Except.map]
      norm_num)
    (by norm_num)

/-- Claim C10: in the hourly variant a movement whose magnitude
exactly equals the 10 percent threshold is not skipped: the run is
never terminated as below-threshold and rendering is reached. -/
theorem hourly_exact_threshold_proceeds (env : HourlyEnv) (data : List Sample)
    (latest diff pct : Rat)
    (hfetch : env.fetchResult = .ok data)
    (hlen : ¬(filterLastHour data env.now_et).length < 2)
    (hstats : hourlyStats (sortByTs (filterLastHour data env.now_et)) = .ok (latest, diff, pct))
    (hpct : |pct| = 10) :
    (hourlyMain env).outcome ≠ .belowThreshold ∧ (hourlyMain env).renderCalled = true := by
  have h10 : ¬|pct| < 10 := by
    rw [hpct]
    exact lt_irrefl 10
  unfold hourlyMain
  rw [hfetch]
  rcases hr : env.renderResult with e | u
  · simp [hlen, hstats, h10, hr]
  · rcases hp : (post_tweet_with_image env.pub).result with e | tid
    · simp [hlen, hstats, h10, hr, hp]
    · simp [hlen, hstats, h10, hr, hp]

/-- Witness for claim C10: a two-sample window moving from 100 to
exactly 110 is a 10 percent move; the run proceeds past the gate and
renders. -/
theorem hourly_exact_threshold_proceeds_witness :
    (hourlyMain ⟨.ok [⟨6500, 100⟩, ⟨7000, 110⟩], 7200, .ok (), goodPub⟩).outcome ≠
      .belowThreshold ∧
    (hourlyMain ⟨.ok [⟨6500, 100⟩, ⟨7000, 110⟩], 7200, .ok (), goodPub⟩).renderCalled = true :=
  hourly_exact_threshold_proceeds ⟨.ok [⟨6500, 100⟩, ⟨7000, 110⟩], 7200, .ok (), goodPub⟩
    [⟨6500, 100⟩, ⟨7000, 110⟩] 110 10 10 rfl
    (by decide)
    (by
      rw [show sortByTs (filterLastHour [⟨6500, 100⟩, ⟨7000, 110⟩] 7200) =
            [⟨6500, 100⟩, ⟨7000, 110⟩] from List.mergeSort_of_sorted (by decide)]
      simp [hourlyStats, pctChange, Except.map]
      norm_num)
    (by norm_num)

/-- Counterexample to claim C7: a batch run in which no configured
symbol has data does not proceed to composing and makes no publish
call; it returns early instead. -/
theorem batch_empty_perf_no_publish :
    (eodMain (.ok []) goodPub).publishCalls = 0 ∧
    (eodMain (.ok []) goodPub).composed = none ∧
    (eodMain (.ok []) goodPub).outcome = .noData := by
  refine ⟨rfl, rfl, rfl⟩

/-- Claim C7 as amended: a batch digest run whose performance mapping
is nonempty applies no magnitude threshold and composes exactly one
line per configured symbol in the caller's order — the no-data text
for each symbol absent from the mapping, the data line otherwise —
then makes exactly one publish call for the whole batch. -/
theorem batch_composes_all_tickers (tickers : List String) (dollarNoData : Bool)
    (perf : List (String × PerfInfo)) (pub : PublishEnv)
    (hperf : perf ≠ []) :
    (batchMain tickers dollarNoData (.ok perf) pub).publishCalls = 1 ∧
    (batchMain tickers dollarNoData (.ok perf) pub).composed =
      some (buildLines dollarNoData tickers perf) ∧
    (buildLines dollarNoData tickers perf).length = tickers.length ∧
    ∀ (i : Nat) (hi : i < tickers.length) (hj : i < (buildLines dollarNoData tickers perf).length),
      (perf.lookup (tickers.get ⟨i, hi⟩) = none →
        (buildLines dollarNoData tickers perf).get ⟨i, hj⟩ =
          .noData ((if dollarNoData then "$" ++ tickers.get ⟨i, hi⟩ else tickers.get ⟨i, hi⟩) ++
            ": No Data")) ∧
      ∀ info : PerfInfo, perf.lookup (tickers.get ⟨i, hi⟩) = some info →
        (buildLines dollarNoData tickers perf).get ⟨i, hj⟩ =
          .data (tickers.get ⟨i, hi⟩) info.close (decide (0 ≤ info.pct_change))
            info.pct_change (get_movement_emoji info.pct_change) := by
  have hne : perf.isEmpty = false := by
    simp [List.isEmpty_iff, hperf]
  have hget : ∀ (i : Nat) (hi : i < tickers.length)
      (hj : i < (buildLines dollarNoData tickers perf).length),
      (buildLines dollarNoData tickers perf).get ⟨i, hj⟩ =
        buildLine dollarNoData (tickers.get ⟨i, hi⟩) (perf.lookup (tickers.get ⟨i, hi⟩)) := by
    intro i hi hj
    simp [buildLines, List.get_eq_getElem, List.getElem_map]
  refine ⟨?_, ?_, ?_, ?_⟩
  · unfold batchMain
    rcases hp : (post_tweet pub).result with e | tid <;> simp [hne, hp]
  · unfold batchMain
    rcases hp : (post_tweet pub).result with e | tid <;> simp [hne, hp]
  · simp [buildLines]
  · intro i hi hj
    constructor
    · intro hnone
      rw [hget i hi hj, hnone]
      rfl
    · intro info hsome
      rw [hget i hi hj, hsome]
      rfl

/-- Witness for claim C7: with only QQQ carrying data, the eod
favorites digest composes one line per configured ticker, the no-data
text for the rest, and publishes once. -/
theorem batch_composes_all_tickers_witness :
    (batchMain EOD_TICKERS false (.ok [("QQQ", ⟨345, -1⟩)]) goodPub).publishCalls = 1 ∧
    (batchMain EOD_TICKERS false (.ok [("QQQ", ⟨345, -1⟩)]) goodPub).composed =
      some (buildLines false EOD_TICKERS [("QQQ", ⟨345, -1⟩)]) ∧
    (buildLines false EOD_TICKERS [("QQQ", ⟨345, -1⟩)]).length = EOD_TICKERS.length ∧
    ∀ (i : Nat) (hi : i < EOD_TICKERS.length)
      (hj : i < (buildLines false EOD_TICKERS [("QQQ", ⟨345, -1⟩)]).length),
      ([("QQQ", (⟨345, -1⟩ : PerfInfo))].lookup (EOD_TICKERS.get ⟨i, hi⟩) = none →
        (buildLines false EOD_TICKERS [("QQQ", ⟨345, -1⟩)]).get ⟨i, hj⟩ =
          .noData ((if false then "$" ++ EOD_TICKERS.get ⟨i, hi⟩ else EOD_TICKERS.get ⟨i, hi⟩) ++
            ": No Data")) ∧
      ∀ info : PerfInfo,
        [("QQQ", (⟨345, -1⟩ : PerfInfo))].lookup (EOD_TICKERS.get ⟨i, hi⟩) = some info →
        (buildLines false EOD_TICKERS [("QQQ", ⟨345, -1⟩)]).get ⟨i, hj⟩ =
          .data (EOD_TICKERS.get ⟨i, hi⟩) info.close (decide (0 ≤ info.pct_change))
            info.pct_change (get_movement_emoji info.pct_change) :=
  batch_composes_all_tickers EOD_TICKERS false [("QQQ", ⟨345, -1⟩)] goodPub (by decide)

/-- Counterexample to claim C8: in the batch digest scripts the fetch
call sits outside the try/except of main, so a fetch failure escapes
uncaught and the process does not exit zero. -/
theorem batch_fetch_error_uncaught :
    (eodMain (.error .fetchError) goodPub).exitCode ≠ 0 ∧
    (eodMain (.error .fetchError) goodPub).outcome = .uncaught .fetchError := by
  refine ⟨by decide, rfl⟩

/-- Claim C8 as amended: in the single-symbol chart variants every
stage error is caught at the orchestrator boundary and the process
exits zero; in the batch digest variants this holds only once the
fetch has returned (a fetch failure itself propagates uncaught). -/
theorem errors_caught_at_boundary :
    (∀ env : HourlyEnv, (hourlyMain env).exitCode = 0) ∧
    (∀ env : WeeklyEnv, (weeklyMain env).exitCode = 0) ∧
    (∀ (tickers : List String) (dollarNoData : Bool)
      (perf : List (String × PerfInfo)) (pub : PublishEnv),
      (batchMain tickers dollarNoData (.ok perf) pub).exitCode = 0) := by
  refine ⟨?_, ?_, ?_⟩
  · intro env
    unfold hourlyMain
    repeat' first | rfl | split | dsimp only
  · intro env
    unfold weeklyMain
    repeat' first | rfl | split | dsimp only
  · intro tickers dollarNoData perf pub
    simp only [batchMain]
    repeat' first | rfl | split

/-- Claim C9: when any of the four publisher credentials is absent,
both posting helpers fail with a ValueError carrying exactly the
names of the absent credentials, before the media upload or the tweet
creation is attempted; each credential name is listed exactly when
that credential is not truthy. -/
theorem creds_fail_fast (pe : PublishEnv) (hmiss : missing_creds pe.creds ≠ []) :
    ((post_tweet_with_image pe).result = .error (.valueError (missing_creds pe.creds)) ∧
     (post_tweet_with_image pe).uploadCalled = false ∧
     (post_tweet_with_image pe).createCalled = false) ∧
    ((post_tweet pe).result = .error (.valueError (missing_creds pe.creds)) ∧
     (post_tweet pe).createCalled = false) ∧
    ∀ c : Creds,
      ("API_KEY" ∈ missing_creds c ↔ truthy c.api_key = false) ∧
      ("API_KEY_SECRET" ∈ missing_creds c ↔ truthy c.api_key_secret = false) ∧
      ("ACCESS_TOKEN" ∈ missing_creds c ↔ truthy c.access_token = false) ∧
      ("ACCESS_TOKEN_SECRET" ∈ missing_creds c ↔ truthy c.access_token_secret = false) := by
  refine ⟨?_, ?_, ?_⟩
  · unfold post_tweet_with_image
    simp [hmiss]
  · unfold post_tweet
    simp [hmiss]
  · intro c
    rcases h1 : truthy c.api_key <;> rcases h2 : truthy c.api_key_secret <;>
      rcases h3 : truthy c.access_token <;> rcases h4 : truthy c.access_token_secret <;>
      simp [missing_creds, credPairs, h1, h2, h3, h4]

/-- A publisher environment missing the consumer secret (unset) and
holding an empty access token, with both network calls otherwise able
to succeed. -/
def missingPub : PublishEnv := ⟨⟨some "k", none, some "", some "t"⟩, .ok 11, .ok 42⟩

/-- Witness for claim C9: with the consumer secret unset and the
access token empty, the posting helper fails naming exactly those two
credentials and makes neither network call. -/
theorem creds_fail_fast_witness :
    (post_tweet_with_image missingPub).result =
      .error (.valueError ["API_KEY_SECRET", "ACCESS_TOKEN"]) ∧
    (post_tweet_with_image missingPub).uploadCalled = false ∧
    (post_tweet_with_image missingPub).createCalled = false := by
  have h := (creds_fail_fast missingPub (by decide)).1
  have hm : missing_creds missingPub.creds = ["API_KEY_SECRET", "ACCESS_TOKEN"] := by decide
  rw [hm] at h
  exact h

end XPosts
